import Mathlib

/-!
A verification development for the voice-assistant repository
(source: src/main.py).  The file embeds the alarm scheduler
(`set_alarm`, `remove_alarm`, `alarm_worker`), the application resolver
(`search_apps_by_name`), the dispatcher helpers (`ask_llm`,
`smart_app_launch`, the unknown-intent branch of `handle_command`) and
the intent router (`parse_command`) as total Lean functions, and proves
or refutes the specification claims about them.

Modelling conventions:
* wall-clock time is a natural number of microseconds since an arbitrary
  epoch; a day is 86400000000 microseconds (`datetime.replace` with
  zeroed seconds and microseconds becomes arithmetic on that base);
* Python `str.lower` is modelled for ASCII letters and the Russian
  Cyrillic block (the only alphabets occurring in the program's data);
* Python `\d` and `\s` are modelled as ASCII digits and ASCII whitespace;
* the external collaborators (reasoning service, OS launcher) are
  oracle parameters `askB : String → String` and `openF : String → Bool`,
  and the module-level `LLM_BACKEND` flag is a `Bool` parameter.
-/

/-- The whitespace characters stripped by Python `str.strip` (ASCII part). -/
def isPySpace (c : Char) : Bool :=
  c == ' ' || c == '\t' || c == '\n' || c == '\r' || c == '\x0b' || c == '\x0c'

/-- Python `str.lower` on one character, for ASCII and Russian Cyrillic. -/
def lowerChar (c : Char) : Char :=
  if 'A' ≤ c && c ≤ 'Z' then Char.ofNat (c.toNat + 32)
  else if 0x410 ≤ c.toNat && c.toNat ≤ 0x42F then Char.ofNat (c.toNat + 32)
  else if c.toNat == 0x401 then Char.ofNat 0x451
  else c

/-- Python `str.lower` (ASCII plus Russian Cyrillic). -/
def pyLower (s : String) : String := ⟨s.data.map lowerChar⟩

/-- Python `str.strip`. -/
def pyStrip (s : String) : String :=
  ⟨((s.data.dropWhile isPySpace).reverse.dropWhile isPySpace).reverse⟩

/-- Python's `needle in hay` substring test, over character lists. -/
def hasSubstr (needle : List Char) : List Char → Bool
  | [] => needle.isEmpty
  | c :: rest => needle.isPrefixOf (c :: rest) || hasSubstr needle rest

/-- Python's `needle in hay` substring test on strings. -/
def strIn (needle hay : String) : Bool := hasSubstr needle.data hay.data

/-- Numeric value of an ASCII digit. -/
def digitVal (c : Char) : Nat := c.toNat - 48

/-- Python `int` on a non-empty ASCII digit string. -/
def natOfDigits (ds : List Char) : Nat :=
  ds.foldl (fun acc c => acc * 10 + digitVal c) 0

/-- Python's `f"{n:02d}"`. -/
def pad2 (n : Nat) : String := if n < 10 then "0" ++ toString n else toString n

/-- Python `str.split()` with no argument: split on whitespace runs,
discarding empty words; `acc` holds the reversed current word. -/
def pySplitWsGo (acc : List Char) : List Char → List String
  | [] => if acc.isEmpty then [] else [⟨acc.reverse⟩]
  | c :: rest =>
    if isPySpace c then
      if acc.isEmpty then pySplitWsGo [] rest else ⟨acc.reverse⟩ :: pySplitWsGo [] rest
    else pySplitWsGo (c :: acc) rest

/-- Python `str.split()` with no argument. -/
def pySplitWs (s : String) : List String := pySplitWsGo [] s.data

/-- Microseconds in one day. -/
def usPerDay : Nat := 86400000000

/-- The anchored regex `^(\d{1,2}):(\d{2})$` of `set_alarm`
(src/main.py:290): one or two digits, a colon, exactly two digits —
where Python's `$` also matches just before a single newline that ends
the string, so each shape is also accepted with one trailing `'\n'`. -/
def hhmmOf : List Char → Option (Nat × Nat)
  | [a, b, ':', c, d] =>
    if a.isDigit && b.isDigit && c.isDigit && d.isDigit then
      some (10 * digitVal a + digitVal b, 10 * digitVal c + digitVal d)
    else none
  | [a, b, ':', c, d, '\n'] =>
    if a.isDigit && b.isDigit && c.isDigit && d.isDigit then
      some (10 * digitVal a + digitVal b, 10 * digitVal c + digitVal d)
    else none
  | [a, ':', c, d] =>
    if a.isDigit && c.isDigit && d.isDigit then
      some (digitVal a, 10 * digitVal c + digitVal d)
    else none
  | [a, ':', c, d, '\n'] =>
    if a.isDigit && c.isDigit && d.isDigit then
      some (digitVal a, 10 * digitVal c + digitVal d)
    else none
  | _ => none

/-- The suffixes the regex `min(ute)?s?` allows after `min`. -/
def minuteTails : List (List Char) := [[], ['s'], ['u', 't', 'e'], ['u', 't', 'e', 's']]

/-- The tails the anchored `min(ute)?s?$` accepts after `min`: each
optional-suffix combination, bare or followed by the single trailing
newline that Python's `$` tolerates at the end of the string. -/
def minuteTailsNl : List (List Char) :=
  minuteTails ++ minuteTails.map (fun l => l ++ ['\n'])

/-- The time-spec parsing of `set_alarm` (src/main.py:288-309).
`HH:MM` with hour 0-23 and minute 0-59 gives the next occurrence of
that clock time strictly after `now` (seconds and microseconds zeroed,
rolling to the next day when the time already passed); otherwise the
anchored regex `^(\d+)\s*min(ute)?s?$` with a positive count gives
`now` plus that many minutes; in both regexes Python's `$` also matches
just before a single trailing newline; every failure raises
`ValueError` wrapped by the outer handler, modelled as `Except.error`
with the wrapped text. -/
def parse_time (now : Nat) (time_str : String) : Except String Nat :=
  match hhmmOf time_str.data with
  | some (hh, mm) =>
    if hh ≤ 23 && mm ≤ 59 then
      let base := now - now % usPerDay + (hh * 3600 + mm * 60) * 1000000
      if base ≤ now then .ok (base + usPerDay) else .ok base
    else
      .error ("Ошибка установки будильника: Некорректное время: " ++ pad2 hh ++ ":" ++ pad2 mm)
  | none =>
    let ds := time_str.data.takeWhile Char.isDigit
    let rest := (time_str.data.dropWhile Char.isDigit).dropWhile isPySpace
    match rest with
    | 'm' :: 'i' :: 'n' :: tail =>
      if !ds.isEmpty && minuteTailsNl.contains tail then
        if natOfDigits ds == 0 then
          .error "Ошибка установки будильника: Количество минут должно быть положительным числом"
        else .ok (now + natOfDigits ds * 60 * 1000000)
      else .error ("Ошибка установки будильника: Непонятный формат времени: " ++ time_str)
    | _ => .error ("Ошибка установки будильника: Непонятный формат времени: " ++ time_str)

/-- Truth of `Except.ok`. -/
def isOkE (r : Except String Nat) : Bool :=
  match r with
  | .ok _ => true
  | .error _ => false

/-- An alarm record: dict `{'time': …, 'label': …, 'id': …}` of src/main.py:311. -/
structure Alarm where
  time : Nat
  label : String
  id : Nat
deriving DecidableEq

/-- Scheduler state: the global `alarms` list plus the set of started
waiter threads (each `threading.Thread(target=alarm_worker, …)` of
src/main.py:314, which snapshots its alarm at creation). -/
structure SchedState where
  alarms : List Alarm
  workers : List Alarm
deriving DecidableEq

/-- Embeds `set_alarm` (src/main.py:285-317): parse the spec; on success append
one alarm with id `len(alarms) + 1` and start one waiter for it; on
failure raise without touching the state. -/
def set_alarm (now : Nat) (time_str label : String) (s : SchedState) :
    Except String Nat × SchedState :=
  match parse_time now time_str with
  | .error e => (.error e, s)
  | .ok t =>
    let a : Alarm := ⟨t, label, s.alarms.length + 1⟩
    (.ok (s.alarms.length + 1), ⟨s.alarms ++ [a], s.workers ++ [a]⟩)

/-- Embeds `remove_alarm` (src/main.py:279-282): filter the alarm list by id.
The started waiters are untouched — the source only rebinds `alarms`. -/
def remove_alarm (alarm_id : Nat) (s : SchedState) : SchedState :=
  ⟨s.alarms.filter (fun a => a.id != alarm_id), s.workers⟩

/-- Renders `strftime('%H:%M')` of a microsecond timestamp. -/
def formatHM (t : Nat) : String :=
  pad2 (t / 3600000000 % 24) ++ ":" ++ pad2 (t / 60000000 % 60)

/-- The message `alarm_worker` (src/main.py:320-333) speaks when the
waiter wakes.  The worker sleeps until the alarm time and then speaks
unconditionally: it consults neither the `alarms` list nor any state
flag (the label key is always present, so `.get('label', …)` returns
the stored label). -/
def alarm_worker_message (a : Alarm) : String :=
  "Будильник: " ++ a.label ++ " — время " ++ formatHM a.time

/-- The notifications that will be spoken once every waiter's deadline
has passed: one per started waiter, unconditionally (src/main.py:326). -/
def firedMessages (s : SchedState) : List String :=
  s.workers.map alarm_worker_message

/-- A scheduler operation: an alarm creation or a cancellation. -/
inductive SchedOp
  | set (now : Nat) (time_str label : String)
  | remove (alarm_id : Nat)

/-- Truth on creation operations. -/
def SchedOp.isSet : SchedOp → Bool
  | .set _ _ _ => true
  | .remove _ => false

/-- Run a sequence of scheduler operations from a state, collecting the
ids returned by the successful `set_alarm` calls. -/
def runOps : SchedState → List SchedOp → SchedState × List Nat
  | s, [] => (s, [])
  | s, SchedOp.set now ts lb :: rest =>
    match set_alarm now ts lb s with
    | (Except.ok i, s') => ((runOps s' rest).1, i :: (runOps s' rest).2)
    | (Except.error _, s') => runOps s' rest
  | s, SchedOp.remove i :: rest => runOps (remove_alarm i s) rest

/-- Modelled from the spec: the `HH:MM` alarm grammar with hour 0-23 and
minute 0-59 — exactly one or two digits, a colon, and two digits,
nothing more. -/
def specHHMM (s : String) : Bool :=
  match s.data with
  | [a, b, ':', c, d] =>
    a.isDigit && b.isDigit && c.isDigit && d.isDigit &&
      decide (10 * digitVal a + digitVal b ≤ 23) &&
      decide (10 * digitVal c + digitVal d ≤ 59)
  | [a, ':', c, d] =>
    a.isDigit && c.isDigit && d.isDigit && decide (10 * digitVal c + digitVal d ≤ 59)
  | _ => false

/-- Modelled from the spec: the literal grammar `"<positive integer>min"`
— a non-empty digit string of positive value immediately followed by
the three characters `min` and nothing else. -/
def specMinLiteral (s : String) : Bool :=
  let ds := s.data.takeWhile Char.isDigit
  !ds.isEmpty && decide (s.data.dropWhile Char.isDigit = ['m', 'i', 'n']) &&
    decide (0 < natOfDigits ds)

/-- The minute grammar the source actually accepts: digits, optional
whitespace, `min` with the optional `ute` and `s` suffixes, optionally
one trailing newline (Python's `$`), with a positive count (regex
`^(\d+)\s*min(ute)?s?$`, src/main.py:301). -/
def codeMinSpec (s : String) : Bool :=
  let ds := s.data.takeWhile Char.isDigit
  let rest := (s.data.dropWhile Char.isDigit).dropWhile isPySpace
  !ds.isEmpty &&
    (match rest with
     | 'm' :: 'i' :: 'n' :: tail => minuteTailsNl.contains tail
     | _ => false) &&
    decide (0 < natOfDigits ds)

/-- The clock grammar the source actually accepts: `HH:MM` with hour
0-23 and minute 0-59, optionally followed by the single trailing
newline Python's `$` tolerates (regex `^(\d{1,2}):(\d{2})$`,
src/main.py:290). -/
def codeHHMMSpec (s : String) : Bool :=
  match hhmmOf s.data with
  | some (hh, mm) => hh ≤ 23 && mm ≤ 59
  | none => false

/-- An application record value: the dict `{'name': …, 'path': …}` built
by the discovery providers (src/main.py:370, 416). -/
structure AppInfo where
  name : String
  path : String
deriving DecidableEq

/-- The exact-match test of `search_apps_by_name` (src/main.py:444):
the normalized query equals the record key, or is a substring of the
lower-cased display name. -/
def isExactMatch (q key : String) (info : AppInfo) : Bool :=
  q == key || strIn q (pyLower info.name)

/-- The partial-match test of `search_apps_by_name` (src/main.py:447):
some whitespace-delimited token of the query occurs in the key or in
the lower-cased display name. -/
def isTokenMatch (q key : String) (info : AppInfo) : Bool :=
  (pySplitWs q).any (fun w => strIn w key || strIn w (pyLower info.name))

/-- The classification loop of `search_apps_by_name` (src/main.py:440-448)
over the merged inventory in insertion order, accumulating the exact
and the partial matches separately. -/
def matchLoop (q : String) : List (String × AppInfo) →
    List (String × AppInfo) × List (String × AppInfo)
  | [] => ([], [])
  | e :: rest =>
    let p := matchLoop q rest
    if isExactMatch q e.1 e.2 then (e :: p.1, p.2)
    else if isTokenMatch q e.1 e.2 then (p.1, e :: p.2)
    else p

/-- Embeds `search_apps_by_name` (src/main.py:427-452), parameterized by the
merged inventory `all_apps` (the Windows-registry and start-menu
providers are platform collaborators): lower-case and strip the query,
classify every record, concatenate exact matches before partial
matches, return the first five. -/
def search_apps_by_name (query : String) (all_apps : List (String × AppInfo)) :
    List (String × AppInfo) :=
  let q := pyStrip (pyLower query)
  let p := matchLoop q all_apps
  (p.1 ++ p.2).take 5

/-- Embeds `ask_llm` (src/main.py:514-521): forward to the active backend when
one is configured, else return the fixed unavailability message. -/
def ask_llm (backend : Bool) (askB : String → String) (question : String) : String :=
  if backend then askB question
  else "Локальная нейросеть недоступна. Установите Ollama или transformers для расширенных возможностей."

/-- The first maximal ASCII digit run of a character list — the first
element of `re.findall(r'\d+', response)` (src/main.py:561). -/
def firstDigitRun : List Char → Option (List Char)
  | [] => none
  | c :: cs => if c.isDigit then some (c :: cs.takeWhile Char.isDigit) else firstDigitRun cs

/-- Python `int(numbers[0])` for the first digit run of the reply, when any. -/
def firstNat (s : String) : Option Nat := (firstDigitRun s.data).map natOfDigits

/-- The numbered candidate list `"\n".join(f"{i+1}. {name}")`
(src/main.py:548). -/
def appsListStr (found : List (String × AppInfo)) : String :=
  String.intercalate "\n" (found.enum.map (fun p => toString (p.1 + 1) ++ ". " ++ p.2.2.name))

/-- The disambiguation prompt sent to the reasoning service
(src/main.py:550-555). -/
def selectionPrompt (query : String) (found : List (String × AppInfo)) : String :=
  "Пользователь хочет запустить приложение по запросу: \"" ++ query ++ "\"\n\n" ++
  "Найдены следующие приложения:\n" ++ appsListStr found ++ "\n\n" ++
  "Выбери номер наиболее подходящего приложения (1-" ++ toString found.length ++
  ") или ответь \"не знаю\" если ни одно не подходит."

/-- The clarification answer returned instead of guessing
(src/main.py:577). -/
def clarifyMsg (found : List (String × AppInfo)) : String :=
  "Найдено несколько приложений: " ++ appsListStr found ++ ". Скажите точнее, какое хотите запустить."

/-- The launch attempt on one candidate (src/main.py:542-545, 569-572):
report success or failure of `open_file` on the stored path. -/
def launchMsg (openF : String → Bool) (e : String × AppInfo) : String :=
  if openF e.2.path then "Запускаю " ++ e.2.name else "Не удалось запустить " ++ e.2.name

/-- The escalation prompt when nothing was found (src/main.py:535). -/
def notFoundPrompt (query : String) : String :=
  "Пользователь хочет запустить приложение: '" ++ query ++
  "'. Но я не могу найти его на компьютере. Подскажи, как можно найти или установить это приложение."

/-- Embeds `smart_app_launch` (src/main.py:524-580): bail out without a
backend; resolve the query; escalate on zero candidates; launch a
unique candidate; otherwise ask the reasoning service to pick, parse
the first integer token of its reply as a one-based index
(`choice = int(numbers[0]) - 1`, accepted when `0 <= choice < len`),
launch the chosen candidate, and fall back to the candidate list when
the index is absent or out of range. -/
def smart_app_launch (backend : Bool) (askB : String → String) (openF : String → Bool)
    (query : String) (inv : List (String × AppInfo)) : String :=
  if !backend then "Нейросеть недоступна для умного поиска приложений"
  else
    let found := search_apps_by_name query inv
    if found.length == 0 then ask_llm backend askB (notFoundPrompt query)
    else if found.length == 1 then launchMsg openF (found.getD 0 ("", ⟨"", ""⟩))
    else
      let response := ask_llm backend askB (selectionPrompt query found)
      match firstNat response with
      | some n =>
        let choice : Int := (n : Int) - 1
        if 0 ≤ choice && choice < (found.length : Int) then
          launchMsg openF (found.getD choice.toNat ("", ⟨"", ""⟩))
        else clarifyMsg found
      | none => clarifyMsg found

/-- The launch-intent keywords of the unknown-intent heuristic
(src/main.py:866). -/
def launchKeywords : List String :=
  ["запусти", "открой", "найди", "запуск", "приложение", "программа"]

/-- The `unknown` branch of `handle_command` (src/main.py:862-877),
returning the sequence of spoken responses: with a backend, keyword
payloads go to `smart_app_launch` and the rest verbatim to `ask_llm`;
without a backend, the fixed did-not-understand message. -/
def handle_unknown (backend : Bool) (askB : String → String) (openF : String → Bool)
    (inv : List (String × AppInfo)) (data : String) : List String :=
  if backend then
    if launchKeywords.any (fun w => strIn w (pyLower data)) then
      ["Попробую найти и запустить приложение...", smart_app_launch backend askB openF data inv]
    else
      ["Попробую разобраться...", ask_llm backend askB data]
  else
    ["Не понял команду. Повторите или скажите \"помощь\". Для расширенных возможностей установите Ollama или transformers."]

/-- The `ask_llm` branch of `handle_command` (src/main.py:721-726): the
spoken progress note followed by the service answer. -/
def handle_ask (backend : Bool) (askB : String → String) (question : String) : List String :=
  ["Думаю...", ask_llm backend askB question]

/-- The closed set of intents of `parse_command` (src/main.py:646-699). -/
inductive Intent
  | quit
  | help
  | show_alarms
  | show_time
  | ask_llm_q
  | check_llm
  | open_app
  | smart_launch
  | set_alarm_i
  | solve_math
  | unknown
deriving DecidableEq

/-- The quit phrases (src/main.py:652). -/
def quitPhrases : List String := ["выход", "выйти", "стоп", "quit", "exit", "хватит"]

/-- The list-alarms trigger words (src/main.py:658). -/
def alarmListWords : List String := ["будильники", "alarms", "список будильников"]

/-- The current-time trigger words (src/main.py:661). -/
def timeWords : List String := ["время", "time", "сколько времени"]

/-- The reasoning-service trigger words (src/main.py:664). -/
def askWords : List String := ["спроси", "ask", "что такое", "как", "почему", "расскажи"]

/-- The reasoning-status trigger phrases (src/main.py:667). -/
def llmStatusWords : List String := ["статус нейросети", "статус llm", "проверь нейросеть"]

/-- The open/launch verbs of the regex alternation (src/main.py:670). -/
def openVerbs : List (List Char) := ["открой".data, "запусти".data, "open".data, "start".data]

/-- The smart-search trigger phrases (src/main.py:675). -/
def smartPhrases : List String :=
  ["найди и запусти", "найди приложение", "запусти программу", "открой программу"]

/-- The compute verbs of the regex alternation (src/main.py:692). -/
def mathVerbs : List (List Char) :=
  ["реши".data, "посчитай".data, "calculate".data, "compute".data, "solve".data]

/-- The character class `[0-9\s\+\-\*\/%\(\)\.\^e]` (src/main.py:697). -/
def isMathChar (c : Char) : Bool :=
  c.isDigit || isPySpace c || c == '+' || c == '-' || c == '*' || c == '/' ||
    c == '%' || c == '(' || c == ')' || c == '.' || c == '^' || c == 'e'

/-- Regex `\s+(.+)` matched at a position, with Python's greedy backtracking:
at least one whitespace character, then a non-empty capture of
characters up to the next newline.  The first argument is the length of
the whitespace run still available to `\s+`. -/
def wsCaptureGo : Nat → List Char → Option (List Char)
  | 0, _ => none
  | j + 1, u =>
    match (u.drop (j + 1)).takeWhile (fun c => c != '\n') with
    | [] => wsCaptureGo j u
    | cap => some cap

/-- Regex `\s+(.+)` matched at the start of `u` (Python `re` semantics). -/
def wsCapture (u : List Char) : Option (List Char) :=
  wsCaptureGo (u.takeWhile isPySpace).length u

/-- Python `re.search` for `(?:verb1|…)\s+(.+)`: scan left to right, trying the
alternatives in order at each position (src/main.py:670, 692). -/
def scanVerbTarget (verbs : List (List Char)) : List Char → Option (List Char)
  | [] => none
  | c :: rest =>
    match verbs.findSome? (fun v =>
      if v.isPrefixOf (c :: rest) then wsCapture ((c :: rest).drop v.length) else none) with
    | some cap => some cap
    | none => scanVerbTarget verbs rest

/-- Regex `\d{1,2}:\d{2}` matched at a position: two digits tried first
(greedy `\d{1,2}`), then one. -/
def matchTime1 : List Char → Option (List Char)
  | a :: ':' :: c :: d :: _ =>
    if a.isDigit && c.isDigit && d.isDigit then some [a, ':', c, d] else none
  | _ => none

/-- Regex `\d{1,2}:\d{2}` at a position with the two-digit attempt first. -/
def matchTimeAt (cs : List Char) : Option (List Char) :=
  match cs with
  | a :: b :: ':' :: c :: d :: _ =>
    if a.isDigit && b.isDigit && c.isDigit && d.isDigit then some [a, b, ':', c, d]
    else matchTime1 cs
  | _ => matchTime1 cs

/-- The alarm-verb alternatives, in the regex's order (src/main.py:684). -/
def alarmAlts : List (List Char) :=
  ["будильник".data, "поставь будильник".data, "установи будильник".data]

/-- Regex `\s*(?:на)?\s*(\d{1,2}:\d{2})` after an alarm verb: skip whitespace,
optionally consume `на` (falling back to not consuming it), skip
whitespace, capture the time literal. -/
def alarmAfter (cs : List Char) : Option (List Char) :=
  let u := cs.dropWhile isPySpace
  if ['н', 'а'].isPrefixOf u then
    match matchTimeAt ((u.drop 2).dropWhile isPySpace) with
    | some lit => some lit
    | none => matchTimeAt u
  else matchTimeAt u

/-- Python `re.search` for the alarm pattern (src/main.py:684). -/
def scanAlarm : List Char → Option (List Char)
  | [] => none
  | c :: rest =>
    match alarmAlts.findSome? (fun alt =>
      if alt.isPrefixOf (c :: rest) then alarmAfter ((c :: rest).drop alt.length) else none) with
    | some lit => some lit
    | none => scanAlarm rest

/-- Regex `\s*(\d+)\s*(?:минут)` after `через`: the captured digit run
(src/main.py:687). -/
def viaAfter (cs : List Char) : Option (List Char) :=
  let u := cs.dropWhile isPySpace
  let ds := u.takeWhile Char.isDigit
  if ds.isEmpty then none
  else if ("минут".data).isPrefixOf ((u.dropWhile Char.isDigit).dropWhile isPySpace) then some ds
  else none

/-- Python `re.search` for `(?:через)\s*(\d+)\s*(?:минут)` (src/main.py:687). -/
def scanVia : List Char → Option (List Char)
  | [] => none
  | c :: rest =>
    match (if ("через".data).isPrefixOf (c :: rest) then viaAfter ((c :: rest).drop 5) else none) with
    | some ds => some ds
    | none => scanVia rest

/-- The smart-launch payload (src/main.py:677-681): strip every
occurrence of the first matching trigger phrase from the utterance. -/
def smartPayload (t : String) : String :=
  match smartPhrases.find? (fun p => strIn p t) with
  | some p => pyStrip (t.replace p "")
  | none => t

/-- The ordered rule table of `parse_command` (src/main.py:646-699),
applied to the lower-cased stripped text `t`; `text` is the original
utterance, used for the payloads of the reasoning and unknown intents. -/
def route (t text : String) : Intent × Option String :=
  if quitPhrases.contains t then (.quit, none)
  else if strIn "помощь" t || strIn "что ты умеешь" t then (.help, none)
  else if alarmListWords.any (fun w => strIn w t) then (.show_alarms, none)
  else if timeWords.any (fun w => strIn w t) then (.show_time, none)
  else if askWords.any (fun w => strIn w t) then (.ask_llm_q, some text)
  else if llmStatusWords.any (fun w => strIn w t) then (.check_llm, none)
  else
    match scanVerbTarget openVerbs t.data with
    | some cap => (.open_app, some (pyStrip ⟨cap⟩))
    | none =>
      if smartPhrases.any (fun p => strIn p t) then (.smart_launch, some (smartPayload t))
      else
        match scanAlarm t.data with
        | some lit => (.set_alarm_i, some ⟨lit⟩)
        | none =>
          match scanVia t.data with
          | some ds => (.set_alarm_i, some (String.mk ds ++ "min"))
          | none =>
            match scanVerbTarget mathVerbs t.data with
            | some expr => (.solve_math, some ⟨expr⟩)
            | none =>
              if !t.data.isEmpty && t.data.all isMathChar then (.solve_math, some t)
              else (.unknown, some text)

/-- Embeds `parse_command` (src/main.py:646-699): lower-case and strip the
utterance, then run the ordered rules; a total function. -/
def parse_command (text : String) : Intent × Option String :=
  route (pyStrip (pyLower text)) text

/-- Claim C10: `set_alarm` is atomic with respect to failure — for every
time spec on which parsing fails, the call returns the error and leaves
the alarm collection and the started waiters exactly as they were; on
success, exactly one new alarm (with id `len(alarms) + 1`) is appended
and exactly one waiter is started for it. -/
theorem set_alarm_atomic (now : Nat) (ts lb : String) (s : SchedState) :
    (∀ e, parse_time now ts = .error e → set_alarm now ts lb s = (.error e, s)) ∧
    (∀ t, parse_time now ts = .ok t →
      set_alarm now ts lb s =
        (.ok (s.alarms.length + 1),
          ⟨s.alarms ++ [⟨t, lb, s.alarms.length + 1⟩],
           s.workers ++ [⟨t, lb, s.alarms.length + 1⟩]⟩)) := by
  constructor
  · intro e h
    simp [set_alarm, h]
  · intro t h
    simp [set_alarm, h]

/-- Witness for claim C10 at the concrete spec `"5min"`. -/
theorem set_alarm_atomic_check :
    set_alarm 0 "5min" "x" ⟨[], []⟩ =
      (.ok 1, ⟨[⟨300000000, "x", 1⟩], [⟨300000000, "x", 1⟩]⟩) :=
  (set_alarm_atomic 0 "5min" "x" ⟨[], []⟩).2 300000000 rfl

/-- Claim C5: every successfully created alarm has `fire_at` strictly
after the creation-time clock; an `HH:MM` spec whose time today has
passed (or equals the current instant) is scheduled for the same clock
time tomorrow — `"07:30"` at wall-clock 08:00 gives tomorrow 07:30 —
and `"10min"` gives now plus ten minutes. -/
theorem alarm_fire_at_future :
    (∀ now s t, parse_time now s = .ok t → now < t) ∧
    (∀ d : Nat, parse_time (d * usPerDay + 28800000000) "07:30" =
      .ok ((d + 1) * usPerDay + 27000000000)) ∧
    (∀ now : Nat, parse_time now "10min" = .ok (now + 600000000)) := by
  refine ⟨?_, ?_, ?_⟩
  · intro now s t h
    have hd : now % usPerDay < usPerDay := Nat.mod_lt _ (by norm_num [usPerDay])
    have hd2 : now % usPerDay ≤ now := Nat.mod_le _ _
    simp only [parse_time] at h
    split at h
    · split at h
      · split at h <;> (simp only [Except.ok.injEq] at h; omega)
      · exact absurd h (by simp)
    · split at h
      · split at h
        · split at h
          · exact absurd h (by simp)
          · rename_i hnz
            simp only [Except.ok.injEq] at h
            simp only [beq_iff_eq] at hnz
            omega
        · exact absurd h (by simp)
      · exact absurd h (by simp)
  · intro d
    have h1 : hhmmOf ("07:30".data) = some (7, 30) := by decide
    have h2 : (d * usPerDay + 28800000000) % usPerDay = 28800000000 := by
      simp only [usPerDay]; omega
    simp only [parse_time, h1, h2]
    norm_num
    simp only [usPerDay] at *
    omega
  · intro now
    have h1 : hhmmOf ("10min".data) = none := by decide
    have h2 : "10min".data.takeWhile Char.isDigit = ['1', '0'] := by decide
    have h3 : ("10min".data.dropWhile Char.isDigit).dropWhile isPySpace = ['m', 'i', 'n'] := by decide
    have h4 : natOfDigits ['1', '0'] = 10 := by decide
    have h5 : minuteTailsNl.contains ([] : List Char) = true := by decide
    simp only [parse_time, h1, h2, h3, h4, h5]
    norm_num

/-- Witness for claim C5: the `"10min"` spec at clock 0 fires at
600000000 microseconds, strictly in the future. -/
theorem alarm_fire_at_future_check :
    (0 : Nat) < 600000000 ∧ parse_time 0 "10min" = Except.ok 600000000 :=
  ⟨alarm_fire_at_future.1 0 "10min" 600000000 rfl, alarm_fire_at_future.2.2 0⟩

/-- Helper for claim C4: whenever the `HH:MM` regex matches, the
remainder after the digit run starts with a colon, so no minute grammar
can match the same string. -/
theorem hhmm_rest_colon (cs : List Char) (p : Nat × Nat) (h : hhmmOf cs = some p) :
    ∃ tl, (cs.dropWhile Char.isDigit).dropWhile isPySpace = ':' :: tl := by
  unfold hhmmOf at h
  split at h
  · rename_i a b c d
    split at h
    · rename_i hcond
      simp only [Bool.and_eq_true] at hcond
      obtain ⟨⟨⟨ha, hb⟩, hc⟩, hd⟩ := hcond
      refine ⟨[c, d], ?_⟩
      simp [List.dropWhile_cons, ha, hb, isPySpace]
    · exact absurd h (by simp)
  · rename_i a b c d
    split at h
    · rename_i hcond
      simp only [Bool.and_eq_true] at hcond
      obtain ⟨⟨⟨ha, hb⟩, hc⟩, hd⟩ := hcond
      refine ⟨[c, d, '\n'], ?_⟩
      simp [List.dropWhile_cons, ha, hb, isPySpace]
    · exact absurd h (by simp)
  · rename_i a c d
    split at h
    · rename_i hcond
      simp only [Bool.and_eq_true] at hcond
      obtain ⟨⟨ha, hc⟩, hd⟩ := hcond
      refine ⟨[c, d], ?_⟩
      simp [List.dropWhile_cons, ha, isPySpace]
    · exact absurd h (by simp)
  · rename_i a c d hne
    split at h
    · rename_i hcond
      simp only [Bool.and_eq_true] at hcond
      obtain ⟨⟨ha, hc⟩, hd⟩ := hcond
      refine ⟨[c, d, '\n'], ?_⟩
      simp [List.dropWhile_cons, ha, isPySpace]
    · exact absurd h (by simp)
  · exact absurd h (by simp)

/-- Counterexample to claim C4 as stated: the spec `"10 minutes"`
matches neither claimed grammar (`HH:MM`, or a positive integer
immediately followed by `min`), yet `set_alarm` accepts it. -/
theorem minute_suffix_outside_claimed_grammar :
    isOkE (parse_time 0 "10 minutes") = true ∧
    (specHHMM "10 minutes" || specMinLiteral "10 minutes") = false := by
  decide

/-- Claim C4 (amended): `set_alarm` fails if and only if the spec
matches neither the code's clock grammar — `HH:MM` with hour 0-23 and
minute 0-59, optionally followed by a single trailing newline, since
Python's `$` matches just before one — nor the code's minute grammar —
a positive integer, optional whitespace, and `min` with the optional
`ute` and `s` suffixes, again optionally followed by a single trailing
newline; in particular `"0min"` and every non-positive count fail. -/
theorem set_alarm_fails_iff (now : Nat) (s : String) :
    isOkE (parse_time now s) = false ↔ codeHHMMSpec s = false ∧ codeMinSpec s = false := by
  unfold codeHHMMSpec codeMinSpec
  simp only [parse_time]
  cases hq : hhmmOf s.data with
  | some p =>
    obtain ⟨hh, mm⟩ := p
    obtain ⟨tl, htl⟩ := hhmm_rest_colon s.data (hh, mm) hq
    simp only [htl]
    split <;> split <;> simp_all [isOkE]
  | none =>
    simp only
    split
    · split
      · split <;> simp_all [isOkE]
      · simp_all [isOkE]
    · simp_all [isOkE]

/-- Counterexample to claim C1 as stated: an alarm created with spec
`"5min"` and then removed (cancelled) while its deadline is still five
minutes away disappears from the alarm collection, yet its started
waiter still speaks the notification — `alarm_worker` re-checks
nothing before acting. -/
theorem cancelled_alarm_still_fires :
    (remove_alarm 1 (set_alarm 0 "5min" "тест" ⟨[], []⟩).2).alarms = [] ∧
    alarm_worker_message ⟨300000000, "тест", 1⟩ ∈
      firedMessages (remove_alarm 1 (set_alarm 0 "5min" "тест" ⟨[], []⟩).2) := by
  decide

/-- Claim C1 (amended): cancellation is advisory at the data level only —
`remove_alarm` never changes the set of started waiters, so the
notification of every started waiter is still spoken; removing is
idempotent and total (cancelling twice, or after firing, is a no-op and
cannot raise), and afterwards no alarm with the removed id remains in
the collection. -/
theorem cancel_is_advisory (alarm_id : Nat) (s : SchedState) :
    firedMessages (remove_alarm alarm_id s) = firedMessages s ∧
    remove_alarm alarm_id (remove_alarm alarm_id s) = remove_alarm alarm_id s ∧
    (remove_alarm alarm_id s).alarms.all (fun a => a.id != alarm_id) = true := by
  refine ⟨rfl, ?_, ?_⟩
  · unfold remove_alarm
    simp only [SchedState.mk.injEq, and_true]
    rw [List.filter_eq_self]
    intro a ha
    exact (List.mem_filter.mp ha).2
  · rw [List.all_eq_true]
    intro a ha
    exact (List.mem_filter.mp ha).2

/-- Counterexample to claim C3 as stated: creating two alarms, removing
the first, and creating a third assigns the ids 1, 2, 2 — the id
`len(alarms) + 1` is reused after a removal, so ids are neither unique
nor strictly increasing across removals. -/
theorem alarm_ids_can_repeat :
    (runOps ⟨[], []⟩
      [.set 0 "5min" "a", .set 0 "5min" "b", .remove 1, .set 0 "5min" "c"]).2 = [1, 2, 2] ∧
    ¬ (runOps ⟨[], []⟩
      [.set 0 "5min" "a", .set 0 "5min" "b", .remove 1, .set 0 "5min" "c"]).2.Nodup := by
  decide

/-- Helper for claim C3: in a removal-free operation sequence the
assigned ids are strictly increasing and all exceed the starting
collection's length. -/
theorem runOps_ids_lt (ops : List SchedOp) :
    ∀ s : SchedState, ops.all SchedOp.isSet = true →
      List.Pairwise (· < ·) (runOps s ops).2 ∧
        ∀ i ∈ (runOps s ops).2, s.alarms.length < i := by
  induction ops with
  | nil => intro s _; simp [runOps]
  | cons op rest ih =>
    intro s h
    cases op with
    | remove j => simp [List.all_cons, SchedOp.isSet] at h
    | set now ts lb =>
      simp only [List.all_cons, Bool.and_eq_true, SchedOp.isSet] at h
      obtain ⟨-, hrest⟩ := h
      cases hp : parse_time now ts with
      | error e =>
        have hstep : runOps s (SchedOp.set now ts lb :: rest) = runOps s rest := by
          simp [runOps, set_alarm, hp]
        rw [hstep]
        exact ih s hrest
      | ok t =>
        have hstep : runOps s (SchedOp.set now ts lb :: rest) =
            ((runOps ⟨s.alarms ++ [⟨t, lb, s.alarms.length + 1⟩],
                s.workers ++ [⟨t, lb, s.alarms.length + 1⟩]⟩ rest).1,
             (s.alarms.length + 1) ::
              (runOps ⟨s.alarms ++ [⟨t, lb, s.alarms.length + 1⟩],
                s.workers ++ [⟨t, lb, s.alarms.length + 1⟩]⟩ rest).2) := by
          simp [runOps, set_alarm, hp]
        rw [hstep]
        dsimp only
        obtain ⟨hpw, hlb⟩ := ih ⟨s.alarms ++ [⟨t, lb, s.alarms.length + 1⟩],
          s.workers ++ [⟨t, lb, s.alarms.length + 1⟩]⟩ hrest
        simp only [List.length_append, List.length_cons, List.length_nil] at hlb
        refine ⟨List.pairwise_cons.mpr ⟨?_, hpw⟩, ?_⟩
        · intro b hb
          have := hlb b hb
          omega
        · intro i hi
          rcases List.mem_cons.mp hi with hieq | himem
          · omega
          · have := hlb i himem
            omega

/-- Claim C3 (amended): alarm ids are unique and strictly increasing for
every removal-free sequence of scheduler operations; once removals are
interleaved the id `len(alarms) + 1` can repeat (see the
counterexample). -/
theorem alarm_ids_monotone (ops : List SchedOp) (s : SchedState)
    (h : ops.all SchedOp.isSet = true) :
    List.Pairwise (· < ·) (runOps s ops).2 :=
  (runOps_ids_lt ops s h).1

/-- Witness for claim C3 (amended) on a two-creation trace. -/
theorem alarm_ids_monotone_check :
    List.Pairwise (· < ·) (runOps ⟨[], []⟩ [.set 0 "5min" "a", .set 0 "3min" "b"]).2 :=
  alarm_ids_monotone _ ⟨[], []⟩ rfl

/-- Counterexample to claim C2 as stated: against an inventory with the
records `"google chrome"` (display name `Google Chrome`) and
`"chromium"` (display name `Chromium`), `resolve("chrome")` returns
only `"google chrome"` — `"chromium"` is not returned at all, because
the query token `chrome` is not a substring of either `chromium`
field. -/
theorem chrome_query_misses_chromium :
    search_apps_by_name "chrome"
        [("google chrome", ⟨"Google Chrome", "chrome.exe"⟩),
         ("chromium", ⟨"Chromium", "chromium.exe"⟩)] =
      [("google chrome", ⟨"Google Chrome", "chrome.exe"⟩)] ∧
    ("chromium", (⟨"Chromium", "chromium.exe"⟩ : AppInfo)) ∉
      search_apps_by_name "chrome"
        [("google chrome", ⟨"Google Chrome", "chrome.exe"⟩),
         ("chromium", ⟨"Chromium", "chromium.exe"⟩)] := by
  decide

/-- Claim C2 (amended): for the query `"chrome"` against that inventory,
`"google chrome"` is returned and classified Exact (the query is a
substring of its display name), while `"chromium"` satisfies neither
the Exact nor the Partial test and is therefore absent from the
result. -/
theorem chrome_query_resolution :
    search_apps_by_name "chrome"
        [("google chrome", ⟨"Google Chrome", "chrome.exe"⟩),
         ("chromium", ⟨"Chromium", "chromium.exe"⟩)] =
      [("google chrome", ⟨"Google Chrome", "chrome.exe"⟩)] ∧
    isExactMatch "chrome" "google chrome" ⟨"Google Chrome", "chrome.exe"⟩ = true ∧
    isExactMatch "chrome" "chromium" ⟨"Chromium", "chromium.exe"⟩ = false ∧
    isTokenMatch "chrome" "chromium" ⟨"Chromium", "chromium.exe"⟩ = false := by
  decide

/-- Helper for claim C7: the classification loop returns exactly the
inventory's exact matches and its strictly-partial matches, each in
insertion order. -/
theorem matchLoop_eq_filter (q : String) (inv : List (String × AppInfo)) :
    matchLoop q inv =
      (inv.filter (fun e => isExactMatch q e.1 e.2),
       inv.filter (fun e => !isExactMatch q e.1 e.2 && isTokenMatch q e.1 e.2)) := by
  induction inv with
  | nil => rfl
  | cons e rest ih =>
    simp only [matchLoop, ih, List.filter_cons]
    by_cases h1 : isExactMatch q e.1 e.2 = true
    · simp [h1]
    · simp only [Bool.not_eq_true] at h1
      by_cases h2 : isTokenMatch q e.1 e.2 = true
      · simp [h1, h2]
      · simp only [Bool.not_eq_true] at h2
        simp [h1, h2]

/-- Claim C7: for every query and inventory the resolver returns at most
five candidates, the result is the five-element truncation of the Exact
block followed by the Partial block, and each block preserves the
inventory's insertion order (it is a sublist of the inventory). -/
theorem resolve_ranked (query : String) (inv : List (String × AppInfo)) :
    (search_apps_by_name query inv).length ≤ 5 ∧
    ∃ ex pa : List (String × AppInfo),
      search_apps_by_name query inv = (ex ++ pa).take 5 ∧
      ex.Sublist inv ∧ pa.Sublist inv ∧
      ex.all (fun e => isExactMatch (pyStrip (pyLower query)) e.1 e.2) = true ∧
      pa.all (fun e =>
        !isExactMatch (pyStrip (pyLower query)) e.1 e.2 &&
          isTokenMatch (pyStrip (pyLower query)) e.1 e.2) = true := by
  constructor
  · simp only [search_apps_by_name]
    exact List.length_take_le 5 _
  · refine ⟨inv.filter (fun e => isExactMatch (pyStrip (pyLower query)) e.1 e.2),
      inv.filter (fun e => !isExactMatch (pyStrip (pyLower query)) e.1 e.2 &&
        isTokenMatch (pyStrip (pyLower query)) e.1 e.2), ?_, ?_, ?_, ?_, ?_⟩
    · simp only [search_apps_by_name, matchLoop_eq_filter]
    · exact List.filter_sublist _
    · exact List.filter_sublist _
    · exact List.all_eq_true.mpr (fun e he => (List.mem_filter.mp he).2)
    · exact List.all_eq_true.mpr (fun e he => (List.mem_filter.mp he).2)

/-- Claim C8: with the service configured and at least two candidates
resolved, the dispatcher asks the reasoning service over the numbered
candidate list; when its reply has no integer token, or the first
integer token is 0 or exceeds the candidate count, the candidate list
is returned instead of launching; when the token is an in-range
one-based index, that candidate is launched. -/
theorem smart_launch_disambiguation (askB : String → String) (openF : String → Bool)
    (query : String) (inv : List (String × AppInfo))
    (h : 2 ≤ (search_apps_by_name query inv).length) :
    (firstNat (askB (selectionPrompt query (search_apps_by_name query inv))) = none →
      smart_app_launch true askB openF query inv =
        clarifyMsg (search_apps_by_name query inv)) ∧
    (∀ n, firstNat (askB (selectionPrompt query (search_apps_by_name query inv))) = some n →
      n = 0 ∨ (search_apps_by_name query inv).length < n →
      smart_app_launch true askB openF query inv =
        clarifyMsg (search_apps_by_name query inv)) ∧
    (∀ n, firstNat (askB (selectionPrompt query (search_apps_by_name query inv))) = some n →
      1 ≤ n → n ≤ (search_apps_by_name query inv).length →
      smart_app_launch true askB openF query inv =
        launchMsg openF ((search_apps_by_name query inv).getD (n - 1) ("", ⟨"", ""⟩))) := by
  have h0 : ((search_apps_by_name query inv).length == 0) = false := by
    simp only [beq_eq_false_iff_ne, ne_eq]; omega
  have h1 : ((search_apps_by_name query inv).length == 1) = false := by
    simp only [beq_eq_false_iff_ne, ne_eq]; omega
  refine ⟨?_, ?_, ?_⟩
  · intro hn
    simp [smart_app_launch, ask_llm, h0, h1, hn]
  · intro n hn hrange
    simp [smart_app_launch, ask_llm, h0, h1, hn]
    intro hA hB
    exfalso
    rcases hrange with h' | h' <;> omega
  · intro n hn hge hle
    simp [smart_app_launch, ask_llm, h0, h1, hn]
    intro himp
    exfalso
    have := himp hge
    omega

/-- Witness for claim C8: two candidates, the service answers
`"вариант 2"`, and the second candidate is launched. -/
theorem smart_launch_disambiguation_check :
    smart_app_launch true (fun _ => "вариант 2") (fun _ => true) "x"
        [("x1", ⟨"Alpha", "a.exe"⟩), ("x2", ⟨"Beta", "b.exe"⟩)] = "Запускаю Beta" := by
  have h := (smart_launch_disambiguation (fun _ => "вариант 2") (fun _ => true) "x"
      [("x1", ⟨"Alpha", "a.exe"⟩), ("x2", ⟨"Beta", "b.exe"⟩)] (by decide)).2.2 2 (by decide)
      (by decide) (by decide)
  rw [h]
  decide

/-- Counterexample to claim C9 as stated: with the reasoning service
unavailable and the keyword payload `"запусти"`, the dispatcher does
not treat the intent as SmartLaunch — it answers with the fixed
did-not-understand message, not with the SmartLaunch treatment. -/
theorem unknown_keyword_unavailable :
    handle_unknown false (fun _ => "") (fun _ => false) [] "запусти" =
      ["Не понял команду. Повторите или скажите \"помощь\". Для расширенных возможностей установите Ollama или transformers."] ∧
    handle_unknown false (fun _ => "") (fun _ => false) [] "запусти" ≠
      ["Попробую найти и запустить приложение...",
       smart_app_launch false (fun _ => "") (fun _ => false) "запусти" []] := by
  constructor
  · rfl
  · decide

/-- Claim C9 (amended): the availability check precedes the keyword
heuristic — with the service available, a keyword payload is treated as
SmartLaunch and any other payload is forwarded verbatim; with the
service unavailable, the response to every Unknown payload is exactly
the fixed did-not-understand message, and `ask_llm` (the AskReasoning
path) returns exactly the fixed unavailability message; nothing
raises. -/
theorem unknown_routing (askB : String → String) (openF : String → Bool)
    (inv : List (String × AppInfo)) (data question : String) :
    handle_unknown true askB openF inv data =
      (if launchKeywords.any (fun w => strIn w (pyLower data)) then
        ["Попробую найти и запустить приложение...", smart_app_launch true askB openF data inv]
      else ["Попробую разобраться...", askB data]) ∧
    handle_unknown false askB openF inv data =
      ["Не понял команду. Повторите или скажите \"помощь\". Для расширенных возможностей установите Ollama или transformers."] ∧
    ask_llm false askB question =
      "Локальная нейросеть недоступна. Установите Ollama или transformers для расширенных возможностей." := by
  refine ⟨?_, rfl, rfl⟩
  simp only [handle_unknown, ask_llm, if_true]

/-- Helper for claim C6: the routed intent does not depend on the
original utterance, only on its lower-cased stripped form. -/
theorem route_intent_fixed (t a b : String) : (route t a).1 = (route t b).1 := by
  unfold route
  repeat' first
    | rfl
    | (split <;> try simp only [*, if_true, if_false, eq_self_iff_true, Bool.not_eq_true,
        Bool.false_eq_true])

/-- Helper for claim C6: every routing outcome either has an intent
other than Unknown, or is exactly Unknown with the original utterance
as payload. -/
theorem route_cases (t text : String) :
    (route t text).1 ≠ Intent.unknown ∨ route t text = (Intent.unknown, some text) := by
  unfold route
  repeat' first
    | (left; exact fun hc => Intent.noConfusion hc)
    | (right; rfl)
    | split

/-- Claim C6: `parse_command` is total by construction (it is a Lean
function, so it returns on every input and never raises); the matching
is performed on the lower-cased stripped utterance — two utterances
with the same normalization receive the same intent — and every
utterance matching none of the ordered rules yields the Unknown intent
whose payload is the original, unmodified input text. -/
theorem parse_command_total_unknown :
    (∀ a b : String, pyStrip (pyLower a) = pyStrip (pyLower b) →
      (parse_command a).1 = (parse_command b).1) ∧
    (∀ s : String, (parse_command s).1 = Intent.unknown → (parse_command s).2 = some s) := by
  constructor
  · intro a b hab
    unfold parse_command
    rw [hab]
    exact route_intent_fixed _ _ _
  · intro s h
    unfold parse_command at h ⊢
    rcases route_cases (pyStrip (pyLower s)) s with h' | h'
    · exact absurd h h'
    · rw [h']

/-- Witness for claim C6 on concrete utterances: casing and surrounding
whitespace do not change the intent, and a non-matching utterance comes
back as Unknown with its original text. -/
theorem parse_command_total_unknown_check :
    (parse_command "  ПрИвЕт МИР  ").1 = (parse_command "привет мир").1 ∧
    (parse_command "привет мир").2 = some "привет мир" :=
  ⟨parse_command_total_unknown.1 "  ПрИвЕт МИР  " "привет мир" (by decide),
   parse_command_total_unknown.2 "привет мир" (by decide)⟩
